import Mathlib

/-!
# Verification of `src/source/memBenchmark.h` (CUDA-Performance-Lab)

Shallow embedding of the memory-bandwidth micro-benchmark.  The C++ program is
a straight-line sequence of host/device buffer allocations, `memcpy` /
`cudaMemcpy` loops, timer / CUDA-event reads, bandwidth computations and
`printf` calls.  We embed it as pure functions:

* a buffer is a function `Nat → ℚ` (the `float` contents; every copy in the
  program spans the whole `n`-element buffer, `bytes = n * sizeof(float)`,
  so out-of-range indices are never read by the program);
* `float` arithmetic is modelled by exact rational arithmetic;
* the elapsed times returned by `Timer::elapsed()` (seconds, a
  `std::chrono::duration<double, std::ratio<1>>`) and by
  `cudaEventElapsedTime` (milliseconds, per the CUDA runtime API) are
  environment inputs, passed as explicit `ℚ` parameters;
* each routine additionally returns the ordered list of observable
  events it performs (prints, copies, allocations/frees, event-timing
  operations, element comparisons of the verification loops), so that
  control-flow facts of the source (what is verified, what is freed,
  in which order timing operations happen) are stated as facts about
  the produced trace.
-/

set_option autoImplicit false

namespace MemBenchmark

/-- A host or device buffer of `float`s: contents indexed by element. -/
abbrev Buf := Nat → ℚ

/-- `memcpy(dst, src, n * sizeof(float))`: the first `n` elements of `dst`
are replaced by those of `src`; the rest of `dst` is untouched. -/
def copyInto (dst src : Buf) (n : Nat) : Buf :=
  fun i => if i < n then src i else dst i

/-- `memset(b, 0, n * sizeof(float))`. -/
def memsetZero (b : Buf) (n : Nat) : Buf :=
  fun i => if i < n then 0 else b i

/-- Freshly allocated memory; the program writes every cell it later reads,
so the (indeterminate in C) initial contents are modelled as zeros. -/
def freshBuf : Buf := fun _ => 0

/-- The direction argument of a `memcpy`/`cudaMemcpy` call. -/
inductive CopyKind
  | hostToHost
  | hostToDevice
  | deviceToHost
  | deviceToDevice
deriving DecidableEq, Repr

/-- One line of output produced by a `printf` call, by constructor rather
than by formatted text.  Headers mark the start of a report block. -/
inductive OutLine
  | h2hHeader (desc : String)
  | h2hBandwidth (v : ℚ)
  | transfersHeader (desc : String)
  | h2dBandwidth (v : ℚ)
  | d2hBandwidth (v : ℚ)
  | transfersFailed (desc : String)
  | d2dHeader
  | d2dBandwidth (v : ℚ)
  | d2dFailed
  | deviceInfo (name : String)
  | transferSizeMB (mb : Nat)
  | blank
deriving DecidableEq, Repr

/-- An observable action of the program, in program order. -/
inductive Event
  | print (l : OutLine)
  | memcpy (k : CopyKind)
  | mallocPageable
  | freePageable
  | mallocPinned
  | freePinned
  | mallocDevice
  | freeDevice
  | eventCreate
  | eventDestroy
  | eventRecordStart
  | eventRecordStop
  | eventSync
  | eventElapsedRead
  | timerElapsedRead
  | compare (i : Nat)
  | rangeStart (label : String)
  | rangeEnd (label : String)
  | deviceQuery
  | deviceReset
deriving DecidableEq, Repr

/-- The verification loop
`for (i = 0; i < n; ++i) if (a[i] != b[i]) { printf(fail); break; }`,
run over the remaining index list: each visited index yields a `compare`
event; the first mismatch prints the failure line and stops comparing. -/
def verifyLoop (a b : Buf) (failLine : OutLine) : List Nat → List Event
  | [] => []
  | i :: rest =>
      Event.compare i ::
        (if a i ≠ b i then [Event.print failLine]
         else verifyLoop a b failLine rest)

/-- Host-to-host bandwidth: `2.0f * iters * bytes * 1e-9 / time`, with
`time` in seconds from `Timer::elapsed()` (factor 2.0 for read and write). -/
def h2hBandwidth (iters bytes : Nat) (time : ℚ) : ℚ :=
  2 * iters * bytes * (1 / 10 ^ 9) / time

/-- Host↔device bandwidth: `bytes * 1e-6 / time`, with `time` in
milliseconds from `cudaEventElapsedTime`. -/
def hdBandwidth (bytes : Nat) (time : ℚ) : ℚ :=
  bytes * (1 / 10 ^ 6) / time

/-- Device-to-device bandwidth: `2.0f * iters * bytes * 1e-6 / time`, with
`time` in milliseconds (factor 2.0 for read and write). -/
def d2dBandwidth (iters bytes : Nat) (time : ℚ) : ℚ :=
  2 * iters * bytes * (1 / 10 ^ 6) / time

/-- Warm-up of `profileH2HCopies`: `for (i = 0; i < 32; i++) memcpy(h_a, h_b, bytes)`. -/
def h2hWarmTrace : List Event :=
  List.replicate 32 (Event.memcpy CopyKind.hostToHost)

/-- One timed phase of `profileH2HCopies`: 100 `memcpy` calls in one direction. -/
def h2hTimedTrace : List Event :=
  List.replicate 100 (Event.memcpy CopyKind.hostToHost)

/-- Warm-up of `profileCopies`: 16 round trips (H2D then D2H). -/
def pcWarmTrace : List Event :=
  (List.replicate 16
    [Event.memcpy CopyKind.hostToDevice, Event.memcpy CopyKind.deviceToHost]).flatten

/-- Warm-up of `profileD2DCopies`: 16 round trips (D2D each way). -/
def d2dWarmTrace : List Event :=
  (List.replicate 16
    [Event.memcpy CopyKind.deviceToDevice, Event.memcpy CopyKind.deviceToDevice]).flatten

/-- One timed phase of `profileD2DCopies`: 100 D2D `cudaMemcpy` calls in one direction. -/
def d2dTimedTrace : List Event :=
  List.replicate 100 (Event.memcpy CopyKind.deviceToDevice)

/-- Result of `profileH2HCopies`: final contents of the two host buffers,
plus the event trace. -/
structure H2HResult where
  h_a : Buf
  h_b : Buf
  trace : List Event

/-- `profileH2HCopies(h_a, h_b, n, desc)`.  `time1`, `time2` are the two
`Timer::elapsed()` readings (seconds). -/
def profileH2HCopies (h_a h_b : Buf) (n : Nat) (desc : String)
    (time1 time2 : ℚ) : H2HResult :=
  let bytes := n * 4
  let a1 := (fun a => copyInto a h_b n)^[32] h_a
  let iters := 100
  let a2 := (fun a => copyInto a h_b n)^[iters] a1
  let band1 := h2hBandwidth iters bytes time1
  let b2 := (fun b => copyInto b a2 n)^[iters] h_b
  let band2 := h2hBandwidth iters bytes time2
  { h_a := a2
    h_b := b2
    trace :=
      [Event.print (OutLine.h2hHeader desc)]
        ++ h2hWarmTrace
        ++ h2hTimedTrace ++ [Event.timerElapsedRead]
        ++ h2hTimedTrace ++ [Event.timerElapsedRead]
        ++ [Event.print (OutLine.h2hBandwidth ((band1 + band2) / 2))] }

/-- One iteration of the warm-up loop of `profileCopies` applied to the
state `(h_b, d)`: `cudaMemcpy(d, h_a, bytes, H2D); cudaMemcpy(h_b, d, bytes, D2H)`. -/
def pcWarmStep (h_a : Buf) (n : Nat) : Buf × Buf → Buf × Buf :=
  fun s =>
    let d := copyInto s.2 h_a n
    (copyInto s.1 d n, d)

/-- Result of `profileCopies`: final contents of `h_b` and of the device
buffer `d` (`h_a` is only read), plus the event trace. -/
structure PCResult where
  h_b : Buf
  d : Buf
  trace : List Event

/-- `profileCopies(h_a, h_b, d, n, desc)`.  `timeH2D`, `timeD2H` are the two
`cudaEventElapsedTime` readings (milliseconds). -/
def profileCopies (h_a h_b d : Buf) (n : Nat) (desc : String)
    (timeH2D timeD2H : ℚ) : PCResult :=
  let bytes := n * 4
  let w := (pcWarmStep h_a n)^[16] (h_b, d)
  let d1 := copyInto w.2 h_a n
  let bandH2D := hdBandwidth bytes timeH2D
  let b1 := copyInto w.1 d1 n
  let bandD2H := hdBandwidth bytes timeD2H
  { h_b := b1
    d := d1
    trace :=
      [Event.print (OutLine.transfersHeader desc)]
        ++ pcWarmTrace
        ++ [Event.eventCreate, Event.eventCreate,
            Event.eventRecordStart, Event.memcpy CopyKind.hostToDevice,
            Event.eventRecordStop, Event.eventSync, Event.eventElapsedRead,
            Event.print (OutLine.h2dBandwidth bandH2D),
            Event.eventRecordStart, Event.memcpy CopyKind.deviceToHost,
            Event.eventRecordStop, Event.eventSync, Event.eventElapsedRead,
            Event.print (OutLine.d2hBandwidth bandD2H)]
        ++ verifyLoop h_a b1 (OutLine.transfersFailed desc) (List.range n)
        ++ [Event.eventDestroy, Event.eventDestroy] }

/-- One iteration of the warm-up loop of `profileD2DCopies` applied to the
state `(d_a, d_b)`: `cudaMemcpy(d_b, d_a, bytes, D2D); cudaMemcpy(d_a, d_b, bytes, D2D)`. -/
def d2dWarmStep (n : Nat) : Buf × Buf → Buf × Buf :=
  fun s =>
    let b := copyInto s.2 s.1 n
    (copyInto s.1 b n, b)

/-- Result of `profileD2DCopies`: final contents of the two device buffers,
plus the event trace. -/
structure D2DResult where
  d_a : Buf
  d_b : Buf
  trace : List Event

/-- `profileD2DCopies(d_a, d_b, n)`.  `time1`, `time2` are the two
`cudaEventElapsedTime` readings (milliseconds).  The two pinned host
buffers allocated for the correctness check are local to the call; note
the source destroys the two timing events at the end but contains no
`cudaFreeHost` for these buffers. -/
def profileD2DCopies (d_a d_b : Buf) (n : Nat) (time1 time2 : ℚ) : D2DResult :=
  let bytes := n * 4
  let w := (d2dWarmStep n)^[16] (d_a, d_b)
  let iters := 100
  let b1 := (fun b => copyInto b w.1 n)^[iters] w.2
  let band1 := d2dBandwidth iters bytes time1
  let a1 := (fun a => copyInto a b1 n)^[iters] w.1
  let band2 := d2dBandwidth iters bytes time2
  let h_a := copyInto freshBuf a1 n
  let h_b := copyInto freshBuf b1 n
  { d_a := a1
    d_b := b1
    trace :=
      [Event.print OutLine.d2dHeader]
        ++ d2dWarmTrace
        ++ [Event.eventCreate, Event.eventCreate, Event.eventRecordStart]
        ++ d2dTimedTrace
        ++ [Event.eventRecordStop, Event.eventSync, Event.eventElapsedRead,
            Event.eventRecordStart]
        ++ d2dTimedTrace
        ++ [Event.eventRecordStop, Event.eventSync, Event.eventElapsedRead,
            Event.print (OutLine.d2dBandwidth ((band1 + band2) / 2)),
            Event.mallocPinned, Event.mallocPinned,
            Event.memcpy CopyKind.deviceToHost,
            Event.memcpy CopyKind.deviceToHost]
        ++ verifyLoop h_a h_b OutLine.d2dFailed (List.range n)
        ++ [Event.eventDestroy, Event.eventDestroy] }

/-- `static const unsigned int MB_TO_TRANSFER = 16`. -/
def MB_TO_TRANSFER : Nat := 16

/-- `nElements = MB_TO_TRANSFER * 256 * 1024`. -/
def nElements : Nat := MB_TO_TRANSFER * 256 * 1024

/-- `bytes = nElements * sizeof(float)`. -/
def mbBytes : Nat := nElements * 4

/-- The ten elapsed-time readings consumed during one run of `memBenchmark`,
in program order. -/
structure Times where
  h2hPageable1 : ℚ
  h2hPageable2 : ℚ
  h2hPinned1 : ℚ
  h2hPinned2 : ℚ
  pcPageableH2D : ℚ
  pcPageableD2H : ℚ
  pcPinnedH2D : ℚ
  pcPinnedD2H : ℚ
  d2dTime1 : ℚ
  d2dTime2 : ℚ

/-- The six long-lived buffers of `memBenchmark`. -/
structure MBState where
  h_aPageable : Buf
  h_bPageable : Buf
  h_aPinned : Buf
  h_bPinned : Buf
  d_a : Buf
  d_b : Buf

/-- `h_aPageable` after `for (i = 0; i < nElements; ++i) h_aPageable[i] = (float)i`. -/
def mbInitAPageable : Buf :=
  fun i => if i < nElements then (i : ℚ) else freshBuf i

/-- The buffer state after allocation and initialization in `memBenchmark`:
`h_aPinned` is a `memcpy` of `h_aPageable`, the two `h_b` buffers are
`memset` to zero, the device buffers are freshly allocated. -/
def mbInit : MBState where
  h_aPageable := mbInitAPageable
  h_bPageable := memsetZero freshBuf nElements
  h_aPinned := copyInto freshBuf mbInitAPageable nElements
  h_bPinned := memsetZero freshBuf nElements
  d_a := freshBuf
  d_b := freshBuf

/-- The state and trace of `memBenchmark` after the two host-to-host
benchmarks (pageable then pinned). -/
def mbAfterH2H (t : Times) : MBState × List Event :=
  let s := mbInit
  let r1 := profileH2HCopies s.h_aPageable s.h_bPageable nElements "Pageable"
              t.h2hPageable1 t.h2hPageable2
  let r2 := profileH2HCopies s.h_aPinned s.h_bPinned nElements "Pinned"
              t.h2hPinned1 t.h2hPinned2
  ({ s with
      h_aPageable := r1.h_a
      h_bPageable := r1.h_b
      h_aPinned := r2.h_a
      h_bPinned := r2.h_b },
   [Event.rangeStart "Host to Host Paged Memory Transfer"]
     ++ r1.trace
     ++ [Event.rangeEnd "Host to Host Paged Memory Transfer",
         Event.rangeStart "Host to Host Pinned Memory Transfer"]
     ++ r2.trace
     ++ [Event.rangeEnd "Host to Host Pinned Memory Transfer"])

/-- Result of `memBenchmark`: the returned status, the final contents of the
six long-lived buffers, and the full event trace. -/
structure MBResult where
  ret : Int
  finalState : MBState
  trace : List Event

/-- `int memBenchmark()`.  `deviceName` is the device name string read by
`cudaGetDeviceProperties`.  The cleanup section of the source frees `d_a`,
the two long-lived pinned buffers and the two pageable buffers, then calls
`cudaDeviceReset`; it contains no `cudaFree(d_b)`. -/
def memBenchmark (deviceName : String) (t : Times) : MBResult :=
  let s0 := mbAfterH2H t
  let s := s0.1
  let r3 := profileCopies s.h_aPageable s.h_bPageable s.d_a nElements "Pageable"
              t.pcPageableH2D t.pcPageableD2H
  let s3 : MBState := { s with h_bPageable := r3.h_b, d_a := r3.d }
  let r4 := profileCopies s3.h_aPinned s3.h_bPinned s3.d_a nElements "Pinned"
              t.pcPinnedH2D t.pcPinnedD2H
  let s4 : MBState := { s3 with h_bPinned := r4.h_b, d_a := r4.d }
  let r5 := profileD2DCopies s4.d_a s4.d_b nElements t.d2dTime1 t.d2dTime2
  let s5 : MBState := { s4 with d_a := r5.d_a, d_b := r5.d_b }
  { ret := 0
    finalState := s5
    trace :=
      [Event.mallocPageable, Event.mallocPageable,
       Event.mallocPinned, Event.mallocPinned,
       Event.mallocDevice, Event.mallocDevice,
       Event.deviceQuery,
       Event.print (OutLine.deviceInfo deviceName),
       Event.print (OutLine.transferSizeMB (mbBytes / (1024 * 1024)))]
        ++ s0.2
        ++ [Event.rangeStart "Paged Memory Transfer"]
        ++ r3.trace
        ++ [Event.rangeEnd "Paged Memory Transfer",
            Event.rangeStart "Pinned Memory Transfer"]
        ++ r4.trace
        ++ [Event.rangeEnd "Pinned Memory Transfer",
            Event.rangeStart "Device to Device Memory Transfer"]
        ++ r5.trace
        ++ [Event.rangeEnd "Device to Device Memory Transfer",
            Event.print OutLine.blank,
            Event.freeDevice,
            Event.freePinned, Event.freePinned,
            Event.freePageable, Event.freePageable,
            Event.deviceReset] }

/-! ## Observers on traces -/

/-- Number of events satisfying `p` in a trace. -/
def countP (p : Event → Bool) : List Event → Nat
  | [] => 0
  | e :: tr => (if p e then 1 else 0) + countP p tr

/-- Is this event a `memcpy` of kind `k`? -/
def isCopy (k : CopyKind) : Event → Bool
  | Event.memcpy j => j == k
  | _ => false

/-- Is this event an element comparison of a verification loop? -/
def isCompareEvt : Event → Bool
  | Event.compare _ => true
  | _ => false

/-- Is this output line a `*** ... transfers failed ***` message? -/
def isFailLine : OutLine → Bool
  | OutLine.transfersFailed _ => true
  | OutLine.d2dFailed => true
  | _ => false

/-- Is this event the printing of a failure message? -/
def isFailPrint : Event → Bool
  | Event.print l => isFailLine l
  | _ => false

/-- Is this output line a `bandwidth (GB/s)` line? -/
def isBandwidthLine : OutLine → Bool
  | OutLine.h2hBandwidth _ => true
  | OutLine.h2dBandwidth _ => true
  | OutLine.d2hBandwidth _ => true
  | OutLine.d2dBandwidth _ => true
  | _ => false

/-- Is this event the printing of a bandwidth line? -/
def isBandwidthPrint : Event → Bool
  | Event.print l => isBandwidthLine l
  | _ => false

/-- Is this event a `printf`? -/
def isPrintEvt : Event → Bool
  | Event.print _ => true
  | _ => false

/-- Is this event a pageable-host allocation (`malloc`)? -/
def isMallocPageable : Event → Bool
  | Event.mallocPageable => true
  | _ => false

/-- Is this event a pageable-host release (`free`)? -/
def isFreePageable : Event → Bool
  | Event.freePageable => true
  | _ => false

/-- Is this event a pinned-host allocation (`cudaMallocHost`)? -/
def isMallocPinned : Event → Bool
  | Event.mallocPinned => true
  | _ => false

/-- Is this event a pinned-host release (`cudaFreeHost`)? -/
def isFreePinned : Event → Bool
  | Event.freePinned => true
  | _ => false

/-- Is this event a device allocation (`cudaMalloc`)? -/
def isMallocDevice : Event → Bool
  | Event.mallocDevice => true
  | _ => false

/-- Is this event a device release (`cudaFree`)? -/
def isFreeDevice : Event → Bool
  | Event.freeDevice => true
  | _ => false

/-- Is this output line the header of one of the five report blocks? -/
def isHeaderLine : OutLine → Bool
  | OutLine.h2hHeader _ => true
  | OutLine.transfersHeader _ => true
  | OutLine.d2dHeader => true
  | _ => false

/-- The header printed by an event, when it is one. -/
def printedHeader : Event → Option OutLine
  | Event.print l => if isHeaderLine l then some l else none
  | _ => none

/-- The report-block headers of a trace, in order. -/
def headerLines (tr : List Event) : List OutLine :=
  tr.filterMap printedHeader

/-- Is this event a CUDA event-timing operation? -/
def isTimingEvt : Event → Bool
  | Event.eventRecordStart => true
  | Event.eventRecordStop => true
  | Event.eventSync => true
  | Event.eventElapsedRead => true
  | _ => false

/-- The CUDA event-timing operations of a trace, in order. -/
def timingOf (tr : List Event) : List Event :=
  tr.filter isTimingEvt

/-- The timing operations of one device-involved timed region:
record start, record stop, synchronize on the stop event, read elapsed time. -/
def quadPattern : List Event :=
  [Event.eventRecordStart, Event.eventRecordStop, Event.eventSync,
   Event.eventElapsedRead]

/-- On a list of timing operations: every elapsed-time read is immediately
preceded by an event synchronization, itself immediately preceded by the
recording of the stop event. -/
def readsAfterSyncedStop (tr : List Event) : Bool :=
  (List.range tr.length).all fun i =>
    !(tr.getD i Event.deviceReset == Event.eventElapsedRead) ||
      (decide (2 ≤ i)
        && (tr.getD (i - 1) Event.deviceReset == Event.eventSync)
        && (tr.getD (i - 2) Event.deviceReset == Event.eventRecordStop))

/-- The non-`printf` events of a trace: the operational code path, with
output formatting removed. -/
def opsOf (tr : List Event) : List Event :=
  tr.filter (fun e => !isPrintEvt e)

/-- Modelled from the spec: the "averaged-time" device-to-device bandwidth
`2 * iterations * bytes / ((time_AtoB + time_BtoA) / 2)`, with the same
GB/s unit constant as the code's `d2dBandwidth` (times in milliseconds). -/
def specAveragedTimeBandwidth (iters bytes : Nat) (t1 t2 : ℚ) : ℚ :=
  2 * iters * bytes * (1 / 10 ^ 6) / ((t1 + t2) / 2)

/-! ## Helper lemmas -/

theorem copyInto_lt (dst src : Buf) {n i : Nat} (h : i < n) :
    copyInto dst src n i = src i := by
  simp [copyInto, h]

theorem copyInto_ge (dst src : Buf) {n i : Nat} (h : n ≤ i) :
    copyInto dst src n i = dst i := by
  simp [copyInto, Nat.not_lt.mpr h]

theorem iterate_copyInto_lt (src : Buf) {n i : Nat} (k : Nat) (x : Buf)
    (h : i < n) : ((fun b => copyInto b src n)^[k + 1]) x i = src i := by
  rw [Function.iterate_succ_apply']
  simp [copyInto, h]

theorem iterate_copyInto_ge (src : Buf) {n i : Nat} (k : Nat) (x : Buf)
    (h : n ≤ i) : ((fun b => copyInto b src n)^[k]) x i = x i := by
  induction k with
  | zero => rfl
  | succ k ih =>
      rw [Function.iterate_succ_apply']
      simp [copyInto, Nat.not_lt.mpr h, ih]

theorem countP_append (p : Event → Bool) (l1 l2 : List Event) :
    countP p (l1 ++ l2) = countP p l1 + countP p l2 := by
  induction l1 with
  | nil => simp [countP]
  | cons e tl ih => simp [countP, ih, Nat.add_assoc]

theorem countP_replicate (p : Event → Bool) (k : Nat) (e : Event) :
    countP p (List.replicate k e) = k * (if p e then 1 else 0) := by
  induction k with
  | zero => simp [countP]
  | succ k ih =>
      rw [List.replicate_succ]
      simp only [countP, ih]
      ring

theorem countP_flatten_replicate (p : Event → Bool) (k : Nat)
    (l : List Event) :
    countP p ((List.replicate k l).flatten) = k * countP p l := by
  induction k with
  | zero => simp [countP]
  | succ k ih =>
      rw [List.replicate_succ]
      simp only [List.flatten_cons, countP_append, ih]
      ring

theorem countP_verifyLoop_zero (p : Event → Bool) (a b : Buf) (f : OutLine)
    (hc : ∀ i, p (Event.compare i) = false)
    (hp : p (Event.print f) = false) :
    ∀ l, countP p (verifyLoop a b f l) = 0 := by
  intro l
  induction l with
  | nil => simp [verifyLoop, countP]
  | cons i rest ih =>
      by_cases h : a i = b i
      · simp [verifyLoop, h, countP, hc, ih]
      · simp [verifyLoop, h, countP, hc, hp]

theorem verifyLoop_eq_map (a b : Buf) (f : OutLine) :
    ∀ l : List Nat, (∀ i ∈ l, a i = b i) →
      verifyLoop a b f l = l.map Event.compare := by
  intro l
  induction l with
  | nil => intro _; simp [verifyLoop]
  | cons i rest ih =>
      intro h
      have hi : a i = b i := h i (List.mem_cons_self i rest)
      simp [verifyLoop, hi, ih (fun j hj => h j (List.mem_cons_of_mem _ hj))]

theorem countP_map_compare_zero (p : Event → Bool)
    (hc : ∀ i, p (Event.compare i) = false) (l : List Nat) :
    countP p (l.map Event.compare) = 0 := by
  induction l with
  | nil => simp [countP]
  | cons i rest ih => simp [countP, hc, ih]

theorem countP_compare_map (l : List Nat) :
    countP isCompareEvt (l.map Event.compare) = l.length := by
  induction l with
  | nil => simp [countP]
  | cons i rest ih => simp [countP, isCompareEvt, ih, Nat.add_comm]

theorem headerLines_append (l1 l2 : List Event) :
    headerLines (l1 ++ l2) = headerLines l1 ++ headerLines l2 := by
  simp [headerLines, List.filterMap_append]

theorem headerLines_verifyLoop (a b : Buf) (f : OutLine)
    (hf : isHeaderLine f = false) :
    ∀ l, headerLines (verifyLoop a b f l) = [] := by
  intro l
  induction l with
  | nil => simp [verifyLoop, headerLines]
  | cons i rest ih =>
      by_cases h : a i = b i
      · simpa [verifyLoop, h, headerLines, printedHeader] using ih
      · simp [verifyLoop, h, headerLines, printedHeader, hf]

theorem headerLines_replicate_memcpy (k : Nat) (c : CopyKind) :
    headerLines (List.replicate k (Event.memcpy c)) = [] := by
  induction k with
  | zero => rfl
  | succ k ih =>
      rw [List.replicate_succ]
      simp only [headerLines, List.filterMap_cons, printedHeader]
      exact ih

theorem headerLines_flatten_replicate (k : Nat) (l : List Event)
    (h : headerLines l = []) :
    headerLines ((List.replicate k l).flatten) = [] := by
  induction k with
  | zero => rfl
  | succ k ih =>
      rw [List.replicate_succ]
      simp [List.flatten_cons, headerLines_append, h, ih]

theorem filter_verifyLoop_eq_nil (p : Event → Bool) (a b : Buf) (f : OutLine)
    (hc : ∀ i, p (Event.compare i) = false)
    (hp : p (Event.print f) = false) :
    ∀ l, (verifyLoop a b f l).filter p = [] := by
  intro l
  induction l with
  | nil => simp [verifyLoop]
  | cons i rest ih =>
      by_cases h : a i = b i
      · simp [verifyLoop, h, hc, ih]
      · simp [verifyLoop, h, hc, hp]

theorem filter_replicate_eq_nil (p : Event → Bool) (k : Nat) (e : Event)
    (h : p e = false) : (List.replicate k e).filter p = [] := by
  induction k with
  | zero => rfl
  | succ k ih =>
      rw [List.replicate_succ]
      simp [h, ih]

theorem filter_flatten_replicate_eq_nil (p : Event → Bool) (k : Nat)
    (l : List Event) (h : l.filter p = []) :
    ((List.replicate k l).flatten).filter p = [] := by
  induction k with
  | zero => rfl
  | succ k ih =>
      rw [List.replicate_succ]
      simp [List.flatten_cons, List.filter_append, h, ih]

theorem opsOf_verifyLoop (a b : Buf) (f g : OutLine) :
    ∀ l, opsOf (verifyLoop a b f l) = opsOf (verifyLoop a b g l) := by
  intro l
  induction l with
  | nil => rfl
  | cons i rest ih =>
      by_cases h : a i = b i
      · simp only [verifyLoop, h]
        simpa [opsOf, isPrintEvt] using ih
      · simp [verifyLoop, h, opsOf, isPrintEvt]

theorem profileH2HCopies_h_a_eval (h_a h_b : Buf) (n : Nat) (desc : String)
    (t1 t2 : ℚ) (i : Nat) :
    (profileH2HCopies h_a h_b n desc t1 t2).h_a i =
      if i < n then h_b i else h_a i := by
  simp only [profileH2HCopies]
  by_cases h : i < n
  · rw [if_pos h]
    exact iterate_copyInto_lt h_b 99 _ h
  · rw [if_neg h]
    rw [iterate_copyInto_ge h_b 100 _ (Nat.le_of_not_lt h),
        iterate_copyInto_ge h_b 32 _ (Nat.le_of_not_lt h)]

theorem profileH2HCopies_h_b_eval (h_a h_b : Buf) (n : Nat) (desc : String)
    (t1 t2 : ℚ) (i : Nat) :
    (profileH2HCopies h_a h_b n desc t1 t2).h_b i = h_b i := by
  simp only [profileH2HCopies]
  by_cases h : i < n
  · rw [iterate_copyInto_lt _ 99 _ h]
    rw [iterate_copyInto_lt h_b 99 _ h]
  · exact iterate_copyInto_ge _ 100 _ (Nat.le_of_not_lt h)

theorem profileCopies_h_b_lt (h_a h_b d : Buf) (n : Nat) (desc : String)
    (t1 t2 : ℚ) {i : Nat} (h : i < n) :
    (profileCopies h_a h_b d n desc t1 t2).h_b i = h_a i := by
  simp only [profileCopies]
  rw [copyInto_lt _ _ h, copyInto_lt _ _ h]

theorem profileCopies_d_lt (h_a h_b d : Buf) (n : Nat) (desc : String)
    (t1 t2 : ℚ) {i : Nat} (h : i < n) :
    (profileCopies h_a h_b d n desc t1 t2).d i = h_a i := by
  simp only [profileCopies]
  rw [copyInto_lt _ _ h]

theorem profileD2DCopies_ab_eq_lt (d_a d_b : Buf) (n : Nat) (t1 t2 : ℚ)
    {i : Nat} (h : i < n) :
    (profileD2DCopies d_a d_b n t1 t2).d_a i =
      (profileD2DCopies d_a d_b n t1 t2).d_b i := by
  simp only [profileD2DCopies]
  exact iterate_copyInto_lt _ 99 _ h

theorem print_mem_verifyLoop_iff (a b : Buf) (f : OutLine) :
    ∀ l : List Nat, Event.print f ∈ verifyLoop a b f l ↔ ∃ i ∈ l, a i ≠ b i := by
  intro l
  induction l with
  | nil => simp [verifyLoop]
  | cons i rest ih =>
      by_cases h : a i = b i
      · simp [verifyLoop, h, ih]
      · constructor
        · intro _
          exact ⟨i, List.mem_cons_self i rest, h⟩
        · intro _
          simp [verifyLoop, h]

theorem countP_isCompare_verifyLoop_eq (a b : Buf) (f : OutLine)
    (l : List Nat) (h : ∀ i ∈ l, a i = b i) :
    countP isCompareEvt (verifyLoop a b f l) = l.length := by
  rw [verifyLoop_eq_map a b f l h, countP_compare_map]

theorem countP_isFailPrint_verifyLoop_eq (a b : Buf) (f : OutLine)
    (l : List Nat) (h : ∀ i ∈ l, a i = b i) :
    countP isFailPrint (verifyLoop a b f l) = 0 := by
  rw [verifyLoop_eq_map a b f l h]
  exact countP_map_compare_zero _ (fun _ => rfl) l

/-! ## Claims -/

/-- C10: the top-level entry point `memBenchmark` returns the integer status
0 on every execution path — for every device name and every combination of
observed elapsed times (hence regardless of any underlying copy or
verification outcome, which only affect the trace, never the status). -/
theorem C10_memBenchmark_returns_zero :
    ∀ (deviceName : String) (t : Times), (memBenchmark deviceName t).ret = 0 := by
  intro _ _
  rfl

/-- C6 counterexample: the claim says the host-to-host formula
(2·iters·bytes·1e-9 / seconds) and the device-side formulas
(bytes·1e-6 / milliseconds, 2·iters·bytes·1e-6 / milliseconds) do not yield
the same GB/s figure for the same bytes, iteration count and physical
duration.  At bytes = 16777216, iters = 100 and a physical duration of
2 seconds (= 2000 milliseconds of `cudaEventElapsedTime`), they yield
exactly the same value, refuting the claim. -/
theorem C6_counterexample :
    h2hBandwidth 100 16777216 2 = d2dBandwidth 100 16777216 2000 ∧
    hdBandwidth 16777216 2000 = (16777216 : ℚ) * (1 / 10 ^ 9) / 2 := by
  constructor <;> norm_num [h2hBandwidth, d2dBandwidth, hdBandwidth]

/-- C6 amended: the formulas use different constants and time units
(1e-9 with `Timer` seconds for host-to-host; 1e-6 with `cudaEventElapsedTime`
milliseconds for the device paths) but they are dimensionally consistent:
for the same byte count, iteration count and physical elapsed duration
(s seconds = 1000·s milliseconds) they yield the same GB/s figure, and the
single-copy host-device formula equals bytes·1e-9 per second; the apparent
unit inconsistency is not a defect (exact arithmetic; float rounding aside). -/
theorem C6_unit_conventions_consistent :
    ∀ (iters bytes : Nat) (s : ℚ),
      d2dBandwidth iters bytes (1000 * s) = h2hBandwidth iters bytes s ∧
      hdBandwidth bytes (1000 * s) = (bytes : ℚ) * (1 / 10 ^ 9) / s := by
  intro iters bytes s
  constructor
  · show (2 : ℚ) * iters * bytes * (1 / 10 ^ 6) / (1000 * s)
        = 2 * iters * bytes * (1 / 10 ^ 9) / s
    rw [← div_div]
    have hX : (2 : ℚ) * iters * bytes * (1 / 10 ^ 6) / 1000
        = 2 * iters * bytes * (1 / 10 ^ 9) := by ring
    rw [hX]
  · show (bytes : ℚ) * (1 / 10 ^ 6) / (1000 * s) = (bytes : ℚ) * (1 / 10 ^ 9) / s
    rw [← div_div]
    have hX : (bytes : ℚ) * (1 / 10 ^ 6) / 1000 = (bytes : ℚ) * (1 / 10 ^ 9) := by
      ring
    rw [hX]

/-- C3: every call to `profileH2HCopies` copies `h_b` into `h_a` during
warm-up and the first timed phase, so on return both buffers hold the
initial contents of `h_b` (on the copied range; `h_a` keeps its own tail).
Consequently, in `memBenchmark` the deterministically initialized source
values are overwritten with zeros by the two host-to-host benchmarks: after
them, all four host buffers are identically zero, so the subsequent
host-device and device-to-device benchmarks transfer all-zero data. -/
theorem C3_h2h_overwrites_sources_with_zeros :
    (∀ (h_a h_b : Buf) (n : Nat) (desc : String) (t1 t2 : ℚ) (i : Nat),
        (profileH2HCopies h_a h_b n desc t1 t2).h_a i =
          (if i < n then h_b i else h_a i) ∧
        (profileH2HCopies h_a h_b n desc t1 t2).h_b i = h_b i) ∧
    (∀ (t : Times) (i : Nat),
        (mbAfterH2H t).1.h_aPageable i = 0 ∧
        (mbAfterH2H t).1.h_bPageable i = 0 ∧
        (mbAfterH2H t).1.h_aPinned i = 0 ∧
        (mbAfterH2H t).1.h_bPinned i = 0) := by
  constructor
  · intro h_a h_b n desc t1 t2 i
    exact ⟨profileH2HCopies_h_a_eval h_a h_b n desc t1 t2 i,
           profileH2HCopies_h_b_eval h_a h_b n desc t1 t2 i⟩
  · intro t i
    simp only [mbAfterH2H, mbInit]
    refine ⟨?_, ?_, ?_, ?_⟩
    · rw [profileH2HCopies_h_a_eval]
      by_cases h : i < nElements
      · simp [memsetZero, freshBuf, h]
      · simp [mbInitAPageable, freshBuf, h]
    · rw [profileH2HCopies_h_b_eval]
      by_cases h : i < nElements <;> simp [memsetZero, freshBuf, h]
    · rw [profileH2HCopies_h_a_eval]
      by_cases h : i < nElements
      · simp [memsetZero, freshBuf, h]
      · simp [copyInto, freshBuf, h]
    · rw [profileH2HCopies_h_b_eval]
      by_cases h : i < nElements <;> simp [memsetZero, freshBuf, h]

set_option maxRecDepth 8192 in
/-- C1 counterexample: at n = 4 with concrete buffers and elapsed times, the
host-to-host benchmark performs zero element comparisons after its timed
copies, while the host-device benchmark over the same element count performs
four — `profileH2HCopies` does not perform the post-copy verification "just
like the others", refuting the claim. -/
theorem C1_counterexample :
    countP isCompareEvt
        (profileH2HCopies (fun _ => 1) (fun _ => 0) 4 "Pageable" 1 1).trace
      = 0 ∧
    countP isCompareEvt
        (profileCopies (fun _ => 1) (fun _ => 0) (fun _ => 0) 4 "Pageable"
          1 1).trace = 4 := by
  constructor <;> decide

/-- C1 amended: after the timed copies, `profileCopies` and
`profileD2DCopies` compare every element of destination against source
(n comparison events; in this model copies always succeed, so the failure
line is never printed), and the failure print occurs in the verification
loop exactly when some compared pair of elements differs (first mismatch
stops the loop, aborting nothing); but `profileH2HCopies` performs no
verification at all: it emits no comparison event and no failure line. -/
theorem C1_verification_coverage :
    (∀ (h_a h_b : Buf) (n : Nat) (desc : String) (t1 t2 : ℚ),
        countP isCompareEvt
            (profileH2HCopies h_a h_b n desc t1 t2).trace = 0 ∧
        countP isFailPrint
            (profileH2HCopies h_a h_b n desc t1 t2).trace = 0) ∧
    (∀ (h_a h_b d : Buf) (n : Nat) (desc : String) (t1 t2 : ℚ),
        countP isCompareEvt
            (profileCopies h_a h_b d n desc t1 t2).trace = n ∧
        countP isFailPrint
            (profileCopies h_a h_b d n desc t1 t2).trace = 0) ∧
    (∀ (d_a d_b : Buf) (n : Nat) (t1 t2 : ℚ),
        countP isCompareEvt
            (profileD2DCopies d_a d_b n t1 t2).trace = n ∧
        countP isFailPrint
            (profileD2DCopies d_a d_b n t1 t2).trace = 0) ∧
    (∀ (a b : Buf) (f : OutLine) (n : Nat),
        Event.print f ∈ verifyLoop a b f (List.range n) ↔
          ∃ i < n, a i ≠ b i) := by
  refine ⟨?_, ?_, ?_, ?_⟩
  · intro h_a h_b n desc t1 t2
    constructor <;>
      · simp only [profileH2HCopies, countP_append, h2hWarmTrace, h2hTimedTrace,
                   countP_replicate]
        simp [countP, isCompareEvt, isFailPrint, isFailLine]
  · intro h_a h_b d n desc t1 t2
    have hall : ∀ i ∈ List.range n,
        h_a i = copyInto ((pcWarmStep h_a n)^[16] (h_b, d)).1
          (copyInto ((pcWarmStep h_a n)^[16] (h_b, d)).2 h_a n) n i := by
      intro i hi
      have hlt : i < n := List.mem_range.mp hi
      simp [copyInto, hlt]
    constructor
    · simp only [profileCopies, countP_append]
      rw [countP_isCompare_verifyLoop_eq _ _ _ _ hall]
      simp only [pcWarmTrace, countP_flatten_replicate, List.length_range]
      simp [countP, isCompareEvt]
    · simp only [profileCopies, countP_append]
      rw [countP_isFailPrint_verifyLoop_eq _ _ _ _ hall]
      simp only [pcWarmTrace, countP_flatten_replicate]
      simp [countP, isFailPrint, isFailLine]
  · intro d_a d_b n t1 t2
    have hall : ∀ i ∈ List.range n,
        copyInto freshBuf
            ((fun a => copyInto a
                ((fun b => copyInto b ((d2dWarmStep n)^[16] (d_a, d_b)).1 n)^[100]
                  ((d2dWarmStep n)^[16] (d_a, d_b)).2) n)^[100]
              ((d2dWarmStep n)^[16] (d_a, d_b)).1) n i =
          copyInto freshBuf
            ((fun b => copyInto b ((d2dWarmStep n)^[16] (d_a, d_b)).1 n)^[100]
              ((d2dWarmStep n)^[16] (d_a, d_b)).2) n i := by
      intro i hi
      have hlt : i < n := List.mem_range.mp hi
      rw [copyInto_lt _ _ hlt, copyInto_lt _ _ hlt]
      exact iterate_copyInto_lt _ 99 _ hlt
    constructor
    · simp only [profileD2DCopies, countP_append]
      rw [countP_isCompare_verifyLoop_eq _ _ _ _ hall]
      simp only [d2dWarmTrace, d2dTimedTrace, countP_flatten_replicate,
                 countP_replicate, List.length_range]
      simp [countP, isCompareEvt]
    · simp only [profileD2DCopies, countP_append]
      rw [countP_isFailPrint_verifyLoop_eq _ _ _ _ hall]
      simp only [d2dWarmTrace, d2dTimedTrace, countP_flatten_replicate,
                 countP_replicate]
      simp [countP, isFailPrint, isFailLine]
  · intro a b f n
    rw [print_mem_verifyLoop_iff a b f (List.range n)]
    simp [List.mem_range]

theorem countP_isMallocPageable_verifyLoop (a b : Buf) (f : OutLine)
    (l : List Nat) : countP isMallocPageable (verifyLoop a b f l) = 0 :=
  countP_verifyLoop_zero _ a b f (fun _ => rfl) rfl l

theorem countP_isFreePageable_verifyLoop (a b : Buf) (f : OutLine)
    (l : List Nat) : countP isFreePageable (verifyLoop a b f l) = 0 :=
  countP_verifyLoop_zero _ a b f (fun _ => rfl) rfl l

theorem countP_isMallocPinned_verifyLoop (a b : Buf) (f : OutLine)
    (l : List Nat) : countP isMallocPinned (verifyLoop a b f l) = 0 :=
  countP_verifyLoop_zero _ a b f (fun _ => rfl) rfl l

theorem countP_isFreePinned_verifyLoop (a b : Buf) (f : OutLine)
    (l : List Nat) : countP isFreePinned (verifyLoop a b f l) = 0 :=
  countP_verifyLoop_zero _ a b f (fun _ => rfl) rfl l

theorem countP_isMallocDevice_verifyLoop (a b : Buf) (f : OutLine)
    (l : List Nat) : countP isMallocDevice (verifyLoop a b f l) = 0 :=
  countP_verifyLoop_zero _ a b f (fun _ => rfl) rfl l

theorem countP_isFreeDevice_verifyLoop (a b : Buf) (f : OutLine)
    (l : List Nat) : countP isFreeDevice (verifyLoop a b f l) = 0 :=
  countP_verifyLoop_zero _ a b f (fun _ => rfl) rfl l

theorem append_ends (l1 l2 : List Event) (e : Event)
    (h : ∃ p, l2 = p ++ [e]) : ∃ p, l1 ++ l2 = p ++ [e] := by
  obtain ⟨p, hp⟩ := h
  exact ⟨l1 ++ p, by rw [hp, List.append_assoc]⟩

set_option maxRecDepth 8192 in
/-- C2 counterexample: the claim says the two temporary pinned host buffers
allocated inside `profileD2DCopies` for the correctness check are freed
within that call.  At concrete inputs (n = 4), the call's trace contains two
`cudaMallocHost` events and zero `cudaFreeHost` events: nothing is freed
within the call, refuting the claim. -/
theorem C2_counterexample :
    countP isMallocPinned
        (profileD2DCopies (fun _ => 0) (fun _ => 0) 4 1 1).trace = 2 ∧
    countP isFreePinned
        (profileD2DCopies (fun _ => 0) (fun _ => 0) 4 1 1).trace = 0 := by
  constructor <;> decide

/-- C2 amended: `profileD2DCopies` allocates its two temporary pinned
buffers and never frees them, and `memBenchmark` does not release every
allocation: over a full run it performs 2 pageable allocations and 2 frees,
4 pinned allocations (2 long-lived + the 2 temporaries) but only 2
`cudaFreeHost` calls, and 2 device allocations (`d_a`, `d_b`) but only 1
`cudaFree` (`d_b` is never explicitly freed); the run ends with
`cudaDeviceReset`, which is the only thing standing between the leaked
pinned temporaries / `d_b` and the end of the suite. -/
theorem C2_allocation_accounting :
    (∀ (d_a d_b : Buf) (n : Nat) (t1 t2 : ℚ),
        countP isMallocPinned (profileD2DCopies d_a d_b n t1 t2).trace = 2 ∧
        countP isFreePinned (profileD2DCopies d_a d_b n t1 t2).trace = 0) ∧
    (∀ (name : String) (t : Times),
        countP isMallocPageable (memBenchmark name t).trace = 2 ∧
        countP isFreePageable (memBenchmark name t).trace = 2 ∧
        countP isMallocPinned (memBenchmark name t).trace = 4 ∧
        countP isFreePinned (memBenchmark name t).trace = 2 ∧
        countP isMallocDevice (memBenchmark name t).trace = 2 ∧
        countP isFreeDevice (memBenchmark name t).trace = 1 ∧
        ∃ pre, (memBenchmark name t).trace = pre ++ [Event.deviceReset]) := by
  constructor
  · intro d_a d_b n t1 t2
    constructor <;>
      · simp only [profileD2DCopies, countP_append, d2dWarmTrace, d2dTimedTrace,
                   countP_replicate, countP_flatten_replicate,
                   countP_isMallocPinned_verifyLoop, countP_isFreePinned_verifyLoop]
        simp [countP, isMallocPinned, isFreePinned]
  · intro name t
    refine ⟨?_, ?_, ?_, ?_, ?_, ?_, ?_⟩
    · simp only [memBenchmark, mbAfterH2H, profileH2HCopies, profileCopies,
                 profileD2DCopies, countP_append, h2hWarmTrace, h2hTimedTrace,
                 pcWarmTrace, d2dWarmTrace, d2dTimedTrace, countP_replicate,
                 countP_flatten_replicate, countP_isMallocPageable_verifyLoop]
      simp [countP, isMallocPageable]
    · simp only [memBenchmark, mbAfterH2H, profileH2HCopies, profileCopies,
                 profileD2DCopies, countP_append, h2hWarmTrace, h2hTimedTrace,
                 pcWarmTrace, d2dWarmTrace, d2dTimedTrace, countP_replicate,
                 countP_flatten_replicate, countP_isFreePageable_verifyLoop]
      simp [countP, isFreePageable]
    · simp only [memBenchmark, mbAfterH2H, profileH2HCopies, profileCopies,
                 profileD2DCopies, countP_append, h2hWarmTrace, h2hTimedTrace,
                 pcWarmTrace, d2dWarmTrace, d2dTimedTrace, countP_replicate,
                 countP_flatten_replicate, countP_isMallocPinned_verifyLoop]
      simp [countP, isMallocPinned]
    · simp only [memBenchmark, mbAfterH2H, profileH2HCopies, profileCopies,
                 profileD2DCopies, countP_append, h2hWarmTrace, h2hTimedTrace,
                 pcWarmTrace, d2dWarmTrace, d2dTimedTrace, countP_replicate,
                 countP_flatten_replicate, countP_isFreePinned_verifyLoop]
      simp [countP, isFreePinned]
    · simp only [memBenchmark, mbAfterH2H, profileH2HCopies, profileCopies,
                 profileD2DCopies, countP_append, h2hWarmTrace, h2hTimedTrace,
                 pcWarmTrace, d2dWarmTrace, d2dTimedTrace, countP_replicate,
                 countP_flatten_replicate, countP_isMallocDevice_verifyLoop]
      simp [countP, isMallocDevice]
    · simp only [memBenchmark, mbAfterH2H, profileH2HCopies, profileCopies,
                 profileD2DCopies, countP_append, h2hWarmTrace, h2hTimedTrace,
                 pcWarmTrace, d2dWarmTrace, d2dTimedTrace, countP_replicate,
                 countP_flatten_replicate, countP_isFreeDevice_verifyLoop]
      simp [countP, isFreeDevice]
    · simp only [memBenchmark]
      repeat refine append_ends _ _ _ ?_
      exact ⟨[Event.rangeEnd "Device to Device Memory Transfer",
              Event.print OutLine.blank, Event.freeDevice,
              Event.freePinned, Event.freePinned,
              Event.freePageable, Event.freePageable], rfl⟩

theorem countP_isCopy_verifyLoop (k : CopyKind) (a b : Buf) (f : OutLine)
    (l : List Nat) : countP (isCopy k) (verifyLoop a b f l) = 0 :=
  countP_verifyLoop_zero _ a b f (fun _ => rfl) rfl l

theorem opsOf_append (l1 l2 : List Event) :
    opsOf (l1 ++ l2) = opsOf l1 ++ opsOf l2 := by
  simp [opsOf, List.filter_append]

/-- C7: every benchmarked direction uses the fixed measurement protocol of
the source: warm-up of 32 copies for host-to-host and 16 round trips for
host-device and device-to-device (hence between 16 and 32 copies per
direction), then a timed phase of exactly 100 copies per direction for
host-to-host and device-to-device and exactly 1 copy per direction for
host-to-device / device-to-host (total copy counts 32+100+100, 16+1, 16+1,
32+100+100 respectively); the `desc` argument distinguishing pageable from
pinned buffers affects only the printed text — the non-print event sequence,
the resulting buffer contents, and hence counts and formula, are identical
for both allocation strategies. -/
theorem C7_measurement_protocol :
    (∀ (h_a h_b : Buf) (n : Nat) (desc : String) (t1 t2 : ℚ),
        countP (isCopy CopyKind.hostToHost)
            (profileH2HCopies h_a h_b n desc t1 t2).trace = 32 + 100 + 100) ∧
    (∀ (h_a h_b d : Buf) (n : Nat) (desc : String) (t1 t2 : ℚ),
        countP (isCopy CopyKind.hostToDevice)
            (profileCopies h_a h_b d n desc t1 t2).trace = 16 + 1 ∧
        countP (isCopy CopyKind.deviceToHost)
            (profileCopies h_a h_b d n desc t1 t2).trace = 16 + 1) ∧
    (∀ (d_a d_b : Buf) (n : Nat) (t1 t2 : ℚ),
        countP (isCopy CopyKind.deviceToDevice)
            (profileD2DCopies d_a d_b n t1 t2).trace = 32 + 100 + 100) ∧
    h2hWarmTrace.length = 32 ∧
    h2hTimedTrace.length = 100 ∧
    pcWarmTrace.length = 32 ∧
    d2dWarmTrace.length = 32 ∧
    d2dTimedTrace.length = 100 ∧
    (∀ (h_a h_b : Buf) (n : Nat) (da db : String) (t1 t2 : ℚ),
        opsOf (profileH2HCopies h_a h_b n da t1 t2).trace =
          opsOf (profileH2HCopies h_a h_b n db t1 t2).trace ∧
        (profileH2HCopies h_a h_b n da t1 t2).h_a =
          (profileH2HCopies h_a h_b n db t1 t2).h_a ∧
        (profileH2HCopies h_a h_b n da t1 t2).h_b =
          (profileH2HCopies h_a h_b n db t1 t2).h_b) ∧
    (∀ (h_a h_b d : Buf) (n : Nat) (da db : String) (t1 t2 : ℚ),
        opsOf (profileCopies h_a h_b d n da t1 t2).trace =
          opsOf (profileCopies h_a h_b d n db t1 t2).trace ∧
        (profileCopies h_a h_b d n da t1 t2).h_b =
          (profileCopies h_a h_b d n db t1 t2).h_b ∧
        (profileCopies h_a h_b d n da t1 t2).d =
          (profileCopies h_a h_b d n db t1 t2).d) := by
  refine ⟨?_, ?_, ?_, by decide, by decide, by decide, by decide, by decide,
          ?_, ?_⟩
  · intro h_a h_b n desc t1 t2
    simp only [profileH2HCopies, countP_append, h2hWarmTrace, h2hTimedTrace,
               countP_replicate]
    simp [countP, isCopy]
  · intro h_a h_b d n desc t1 t2
    constructor <;>
      · simp only [profileCopies, countP_append, pcWarmTrace,
                   countP_flatten_replicate, countP_isCopy_verifyLoop]
        simp [countP, isCopy]
  · intro d_a d_b n t1 t2
    simp only [profileD2DCopies, countP_append, d2dWarmTrace, d2dTimedTrace,
               countP_replicate, countP_flatten_replicate,
               countP_isCopy_verifyLoop]
    simp [countP, isCopy]
  · intro h_a h_b n da db t1 t2
    refine ⟨?_, rfl, rfl⟩
    simp only [profileH2HCopies, opsOf_append]
    simp [opsOf, isPrintEvt]
  · intro h_a h_b d n da db t1 t2
    refine ⟨?_, rfl, rfl⟩
    simp only [profileCopies, opsOf_append]
    rw [opsOf_verifyLoop h_a _ (OutLine.transfersFailed da)
          (OutLine.transfersFailed db) (List.range n)]
    simp [opsOf, isPrintEvt]

theorem h2hBandwidth_print_mem (h_a h_b : Buf) (n : Nat) (desc : String)
    (t1 t2 : ℚ) :
    Event.print (OutLine.h2hBandwidth
        ((h2hBandwidth 100 (n * 4) t1 + h2hBandwidth 100 (n * 4) t2) / 2))
      ∈ (profileH2HCopies h_a h_b n desc t1 t2).trace := by
  simp [profileH2HCopies, List.mem_append]

theorem h2dBandwidth_print_mem (h_a h_b d : Buf) (n : Nat) (desc : String)
    (t1 t2 : ℚ) :
    Event.print (OutLine.h2dBandwidth (hdBandwidth (n * 4) t1))
      ∈ (profileCopies h_a h_b d n desc t1 t2).trace := by
  simp [profileCopies, List.mem_append]

theorem d2dBandwidth_print_mem (d_a d_b : Buf) (n : Nat) (t1 t2 : ℚ) :
    Event.print (OutLine.d2dBandwidth
        ((d2dBandwidth 100 (n * 4) t1 + d2dBandwidth 100 (n * 4) t2) / 2))
      ∈ (profileD2DCopies d_a d_b n t1 t2).trace := by
  simp [profileD2DCopies, List.mem_append]

set_option maxRecDepth 8192 in
/-- C4 counterexample: the claim says the reported device-to-device
bandwidth equals `2 * iterations * bytes / ((time_AtoB + time_BtoA) / 2)`.
At n = 16 (bytes = 64), time_AtoB = 1 ms, time_BtoA = 3 ms, the benchmark
prints the arithmetic mean of the two per-direction bandwidths — 16/1875
GB/s — while the averaged-time formula gives 12/1875 GB/s: they differ, so
the code's arithmetic mean of bandwidths is not the averaged-time figure. -/
theorem C4_counterexample :
    Event.print (OutLine.d2dBandwidth
        ((d2dBandwidth 100 (16 * 4) 1 + d2dBandwidth 100 (16 * 4) 3) / 2))
      ∈ (profileD2DCopies (fun _ => 0) (fun _ => 0) 16 1 3).trace ∧
    (d2dBandwidth 100 (16 * 4) 1 + d2dBandwidth 100 (16 * 4) 3) / 2 ≠
      specAveragedTimeBandwidth 100 (16 * 4) 1 3 := by
  constructor
  · exact d2dBandwidth_print_mem (fun _ => 0) (fun _ => 0) 16 1 3
  · norm_num [d2dBandwidth, specAveragedTimeBandwidth]

/-- C4 amended: the bandwidth figure reported by `profileD2DCopies` is the
arithmetic mean of the two independently measured per-direction bandwidths
`2·iters·bytes·1e-6 / time_k`; this equals the spec's averaged-time formula
`2·iters·bytes / ((t1 + t2)/2)` exactly when the two directional timings
coincide (for unequal timings the two figures differ, as the counterexample
shows). -/
theorem C4_reported_is_mean_of_bandwidths :
    (∀ (d_a d_b : Buf) (n : Nat) (t1 t2 : ℚ),
        Event.print (OutLine.d2dBandwidth
            ((d2dBandwidth 100 (n * 4) t1 + d2dBandwidth 100 (n * 4) t2) / 2))
          ∈ (profileD2DCopies d_a d_b n t1 t2).trace) ∧
    (∀ (bytes : Nat) (t : ℚ),
        (d2dBandwidth 100 bytes t + d2dBandwidth 100 bytes t) / 2 =
          specAveragedTimeBandwidth 100 bytes t t) := by
  constructor
  · intro d_a d_b n t1 t2
    simp [profileD2DCopies, List.mem_append]
  · intro bytes t
    have h2 : (t + t) / 2 = t := by ring
    rw [specAveragedTimeBandwidth, h2, d2dBandwidth]
    ring

theorem countP_isBandwidthPrint_verifyLoop_fail (a b : Buf) (desc : String)
    (l : List Nat) :
    countP isBandwidthPrint
      (verifyLoop a b (OutLine.transfersFailed desc) l) = 0 :=
  countP_verifyLoop_zero _ a b _ (fun _ => rfl) rfl l

theorem countP_isBandwidthPrint_verifyLoop_d2dFail (a b : Buf)
    (l : List Nat) :
    countP isBandwidthPrint (verifyLoop a b OutLine.d2dFailed l) = 0 :=
  countP_verifyLoop_zero _ a b _ (fun _ => rfl) rfl l

set_option maxRecDepth 8192 in
/-- C5 counterexample: the claim says that for a zero or negative elapsed
time the profiler guards the division so that an infinite or undefined
bandwidth is never reported.  With a zero first elapsed time at concrete
inputs, `profileH2HCopies` still prints its bandwidth line (one bandwidth
print, unconditionally): the division `2·iters·bytes·1e-9 / 0` is performed
and its result reported — there is no guard. -/
theorem C5_counterexample :
    countP isBandwidthPrint
        (profileH2HCopies (fun _ => 0) (fun _ => 0) 4 "Pageable" 0 1).trace
      = 1 := by
  decide

/-- C5 amended: in exact arithmetic every bandwidth value is strictly
positive whenever the iteration count, byte count and elapsed time are
positive; but the code contains no guard for a zero or negative elapsed
time: each routine prints its bandwidth line(s) unconditionally — exactly
1, 2 and 1 bandwidth prints per call of `profileH2HCopies`, `profileCopies`
and `profileD2DCopies` respectively, for every elapsed-time value including
zero and negative ones. -/
theorem C5_bandwidth_positive_but_unguarded :
    (∀ (iters bytes : Nat) (t : ℚ), 0 < iters → 0 < bytes → 0 < t →
        0 < h2hBandwidth iters bytes t ∧ 0 < d2dBandwidth iters bytes t) ∧
    (∀ (bytes : Nat) (t : ℚ), 0 < bytes → 0 < t →
        0 < hdBandwidth bytes t) ∧
    (∀ (h_a h_b : Buf) (n : Nat) (desc : String) (t1 t2 : ℚ),
        countP isBandwidthPrint
          (profileH2HCopies h_a h_b n desc t1 t2).trace = 1) ∧
    (∀ (h_a h_b d : Buf) (n : Nat) (desc : String) (t1 t2 : ℚ),
        countP isBandwidthPrint
          (profileCopies h_a h_b d n desc t1 t2).trace = 2) ∧
    (∀ (d_a d_b : Buf) (n : Nat) (t1 t2 : ℚ),
        countP isBandwidthPrint
          (profileD2DCopies d_a d_b n t1 t2).trace = 1) := by
  refine ⟨?_, ?_, ?_, ?_, ?_⟩
  · intro iters bytes t hi hb ht
    have hi' : (0 : ℚ) < iters := by exact_mod_cast hi
    have hb' : (0 : ℚ) < bytes := by exact_mod_cast hb
    constructor
    · unfold h2hBandwidth
      positivity
    · unfold d2dBandwidth
      positivity
  · intro bytes t hb ht
    have hb' : (0 : ℚ) < bytes := by exact_mod_cast hb
    unfold hdBandwidth
    positivity
  · intro h_a h_b n desc t1 t2
    simp only [profileH2HCopies, countP_append, h2hWarmTrace, h2hTimedTrace,
               countP_replicate]
    simp [countP, isBandwidthPrint, isBandwidthLine]
  · intro h_a h_b d n desc t1 t2
    simp only [profileCopies, countP_append, pcWarmTrace,
               countP_flatten_replicate,
               countP_isBandwidthPrint_verifyLoop_fail]
    simp [countP, isBandwidthPrint, isBandwidthLine]
  · intro d_a d_b n t1 t2
    simp only [profileD2DCopies, countP_append, d2dWarmTrace, d2dTimedTrace,
               countP_replicate, countP_flatten_replicate,
               countP_isBandwidthPrint_verifyLoop_d2dFail]
    simp [countP, isBandwidthPrint, isBandwidthLine]

/-- C5 witness: the positivity clauses of the amended theorem instantiated
at iters = 100, bytes = 4, t = 1, with every hypothesis discharged. -/
theorem C5_witness :
    0 < h2hBandwidth 100 4 1 ∧ 0 < d2dBandwidth 100 4 1 ∧
    0 < hdBandwidth 4 1 :=
  ⟨(C5_bandwidth_positive_but_unguarded.1 100 4 1 (by norm_num) (by norm_num)
      (by norm_num)).1,
   (C5_bandwidth_positive_but_unguarded.1 100 4 1 (by norm_num) (by norm_num)
      (by norm_num)).2,
   C5_bandwidth_positive_but_unguarded.2.1 4 1 (by norm_num) (by norm_num)⟩

theorem headerLines_h2hWarm : headerLines h2hWarmTrace = [] :=
  headerLines_replicate_memcpy 32 _

theorem headerLines_h2hTimed : headerLines h2hTimedTrace = [] :=
  headerLines_replicate_memcpy 100 _

theorem headerLines_pcWarm : headerLines pcWarmTrace = [] :=
  headerLines_flatten_replicate 16 _ rfl

theorem headerLines_d2dWarm : headerLines d2dWarmTrace = [] :=
  headerLines_flatten_replicate 16 _ rfl

theorem headerLines_d2dTimed : headerLines d2dTimedTrace = [] :=
  headerLines_replicate_memcpy 100 _

theorem headerLines_verifyLoop_fail (a b : Buf) (desc : String)
    (l : List Nat) :
    headerLines (verifyLoop a b (OutLine.transfersFailed desc) l) = [] :=
  headerLines_verifyLoop a b (OutLine.transfersFailed desc) rfl l

theorem headerLines_verifyLoop_d2dFail (a b : Buf) (l : List Nat) :
    headerLines (verifyLoop a b OutLine.d2dFailed l) = [] :=
  headerLines_verifyLoop a b OutLine.d2dFailed rfl l

theorem headerLines_profileH2H (h_a h_b : Buf) (n : Nat) (desc : String)
    (t1 t2 : ℚ) :
    headerLines (profileH2HCopies h_a h_b n desc t1 t2).trace =
      [OutLine.h2hHeader desc] := by
  simp only [profileH2HCopies, headerLines_append, headerLines_h2hWarm,
             headerLines_h2hTimed]
  simp [headerLines, printedHeader, isHeaderLine]

theorem headerLines_profileCopies (h_a h_b d : Buf) (n : Nat) (desc : String)
    (t1 t2 : ℚ) :
    headerLines (profileCopies h_a h_b d n desc t1 t2).trace =
      [OutLine.transfersHeader desc] := by
  simp only [profileCopies, headerLines_append, headerLines_pcWarm,
             headerLines_verifyLoop_fail]
  simp [headerLines, printedHeader, isHeaderLine]

theorem headerLines_profileD2D (d_a d_b : Buf) (n : Nat) (t1 t2 : ℚ) :
    headerLines (profileD2DCopies d_a d_b n t1 t2).trace =
      [OutLine.d2dHeader] := by
  simp only [profileD2DCopies, headerLines_append, headerLines_d2dWarm,
             headerLines_d2dTimed, headerLines_verifyLoop_d2dFail]
  simp [headerLines, printedHeader, isHeaderLine]

/-- C8: the suite uses a transfer size of exactly
N = 16 · 262144 = 4194304 four-byte elements (16777216 bytes), the same
`nElements` being passed to all five benchmark calls (the bandwidth values
of every block are instances of the formulas at bytes = nElements·4), and a
full run prints exactly five report-block headers in the fixed order
H2H-Pageable, H2H-Pinned, transfers-Pageable, transfers-Pinned, D2D. -/
theorem C8_transfer_size_and_report_blocks :
    nElements = 4194304 ∧
    mbBytes = 16777216 ∧
    (∀ (name : String) (t : Times),
        headerLines (memBenchmark name t).trace =
          [OutLine.h2hHeader "Pageable", OutLine.h2hHeader "Pinned",
           OutLine.transfersHeader "Pageable",
           OutLine.transfersHeader "Pinned", OutLine.d2dHeader] ∧
        Event.print (OutLine.h2hBandwidth
            ((h2hBandwidth 100 (nElements * 4) t.h2hPageable1
              + h2hBandwidth 100 (nElements * 4) t.h2hPageable2) / 2))
          ∈ (memBenchmark name t).trace ∧
        Event.print (OutLine.h2dBandwidth
            (hdBandwidth (nElements * 4) t.pcPageableH2D))
          ∈ (memBenchmark name t).trace ∧
        Event.print (OutLine.d2dBandwidth
            ((d2dBandwidth 100 (nElements * 4) t.d2dTime1
              + d2dBandwidth 100 (nElements * 4) t.d2dTime2) / 2))
          ∈ (memBenchmark name t).trace) := by
  refine ⟨by decide, by decide, ?_⟩
  intro name t
  refine ⟨?_, ?_, ?_, ?_⟩
  · simp only [memBenchmark, mbAfterH2H, headerLines_append,
               headerLines_profileH2H, headerLines_profileCopies,
               headerLines_profileD2D]
    simp [headerLines, printedHeader, isHeaderLine]
  · simp only [memBenchmark, mbAfterH2H, List.mem_append]
    simp [h2hBandwidth_print_mem]
  · simp only [memBenchmark, mbAfterH2H, List.mem_append]
    simp [h2dBandwidth_print_mem]
  · simp only [memBenchmark, mbAfterH2H, List.mem_append]
    simp [d2dBandwidth_print_mem]

theorem timingOf_append (l1 l2 : List Event) :
    timingOf (l1 ++ l2) = timingOf l1 ++ timingOf l2 := by
  simp [timingOf, List.filter_append]

theorem timingOf_h2hWarm : timingOf h2hWarmTrace = [] :=
  filter_replicate_eq_nil _ 32 _ rfl

theorem timingOf_h2hTimed : timingOf h2hTimedTrace = [] :=
  filter_replicate_eq_nil _ 100 _ rfl

theorem timingOf_pcWarm : timingOf pcWarmTrace = [] :=
  filter_flatten_replicate_eq_nil _ 16 _ rfl

theorem timingOf_d2dWarm : timingOf d2dWarmTrace = [] :=
  filter_flatten_replicate_eq_nil _ 16 _ rfl

theorem timingOf_d2dTimed : timingOf d2dTimedTrace = [] :=
  filter_replicate_eq_nil _ 100 _ rfl

theorem timingOf_verifyLoop (a b : Buf) (f : OutLine) (l : List Nat) :
    timingOf (verifyLoop a b f l) = [] :=
  filter_verifyLoop_eq_nil _ a b f (fun _ => rfl) rfl l

theorem timingOf_profileH2H (h_a h_b : Buf) (n : Nat) (desc : String)
    (t1 t2 : ℚ) :
    timingOf (profileH2HCopies h_a h_b n desc t1 t2).trace = [] := by
  simp only [profileH2HCopies, timingOf_append, timingOf_h2hWarm,
             timingOf_h2hTimed]
  simp [timingOf, isTimingEvt]

theorem timingOf_profileCopies_eq (h_a h_b d : Buf) (n : Nat) (desc : String)
    (t1 t2 : ℚ) :
    timingOf (profileCopies h_a h_b d n desc t1 t2).trace =
      quadPattern ++ quadPattern := by
  simp only [profileCopies, timingOf_append, timingOf_pcWarm,
             timingOf_verifyLoop]
  simp [timingOf, isTimingEvt, quadPattern]

theorem timingOf_profileD2D_eq (d_a d_b : Buf) (n : Nat) (t1 t2 : ℚ) :
    timingOf (profileD2DCopies d_a d_b n t1 t2).trace =
      quadPattern ++ quadPattern := by
  simp only [profileD2DCopies, timingOf_append, timingOf_d2dWarm,
             timingOf_d2dTimed, timingOf_verifyLoop]
  simp [timingOf, isTimingEvt, quadPattern]

/-- C9: in every device-involved timed region the sequence of CUDA
event-timing operations is record-start, record-stop, synchronize,
read-elapsed: each of `profileCopies` and `profileD2DCopies` performs
exactly two such quadruples (and a full `memBenchmark` run exactly six),
and on these sequences every elapsed-time read is immediately preceded by
an event synchronization that itself immediately follows the recording of
the stop event — no elapsed time is read from an unsynchronized stop
event. -/
theorem C9_stop_synchronized_before_elapsed_read :
    (∀ (h_a h_b d : Buf) (n : Nat) (desc : String) (t1 t2 : ℚ),
        timingOf (profileCopies h_a h_b d n desc t1 t2).trace =
          quadPattern ++ quadPattern) ∧
    (∀ (d_a d_b : Buf) (n : Nat) (t1 t2 : ℚ),
        timingOf (profileD2DCopies d_a d_b n t1 t2).trace =
          quadPattern ++ quadPattern) ∧
    (∀ (name : String) (t : Times),
        timingOf (memBenchmark name t).trace =
          quadPattern ++ quadPattern ++ quadPattern ++ quadPattern
            ++ quadPattern ++ quadPattern) ∧
    readsAfterSyncedStop (quadPattern ++ quadPattern) = true ∧
    readsAfterSyncedStop (quadPattern ++ quadPattern ++ quadPattern
      ++ quadPattern ++ quadPattern ++ quadPattern) = true := by
  refine ⟨?_, ?_, ?_, by decide, by decide⟩
  · intro h_a h_b d n desc t1 t2
    exact timingOf_profileCopies_eq h_a h_b d n desc t1 t2
  · intro d_a d_b n t1 t2
    exact timingOf_profileD2D_eq d_a d_b n t1 t2
  · intro name t
    simp only [memBenchmark, mbAfterH2H, timingOf_append, timingOf_profileH2H,
               timingOf_profileCopies_eq, timingOf_profileD2D_eq]
    simp [timingOf, isTimingEvt]

end MemBenchmark
